import Mathlib

/-!
Verification of the sciunit Comparator / Score / Converter core
(`src/sciunit/comparators.py`) against its specification.

Numbers are modelled as `Rat` (the source computes in Python floats; every
constant appearing in the claims, such as 2.0001, is an exact decimal).
A Python dict of statistics is an association list with first-match lookup.
Python raises `KeyError` on a missing dict key and `ZeroDivisionError` on a
zero denominator; fallible operations therefore return `Except SciError _`.

The base class `sciunit.Comparator` and the score classes in
`sciunit.scores` are referenced by `comparators.py` but are not under
`src/`; those parts are modelled from the spec (sections 3 and 4.1) and
carry doc comments saying so.  Everything else is translated directly from
`src/sciunit/comparators.py`.
-/

/-- Failure taxonomy: Python's built-in `KeyError` and `ZeroDivisionError`
(raised by dict lookup and by division), plus the error classes named by the
spec's error-handling design (sections 4.1, 4.4, 7). -/
inductive SciError where
  | keyError
  | zeroDivisionError
  | missingStatisticError
  | undefinedRatioError
  | undefinedZScoreError
  | incompatibleScoreTypeError
deriving DecidableEq

/-- The three score kinds produced in this codebase. -/
inductive ScoreTag where
  | ratio
  | z
  | boolean
deriving DecidableEq

/-- Modelled from the spec: a `Score` (spec section 3) wraps exactly one
raw value plus its `score_type` tag and is immutable after construction.
The raw value is a `Rat`; a boolean verdict is stored as 0/1, mirroring
Python where `bool` is a subtype of `int` (so `Z.score` reads uniformly
off any score object, as the duck-typed source does). -/
structure Score where
  tag : ScoreTag
  score : Rat
deriving DecidableEq

/-- Modelled from the spec: `sciunit.scores.RatioScore` constructor. -/
def RatioScore (x : Rat) : Score := ⟨ScoreTag.ratio, x⟩

/-- Modelled from the spec: `sciunit.scores.ZScore` constructor. -/
def ZScore (x : Rat) : Score := ⟨ScoreTag.z, x⟩

/-- Modelled from the spec: `sciunit.scores.BooleanScore` constructor;
the boolean is stored as the raw value (0/1, as Python `bool ⊂ int`). -/
def BooleanScore (b : Bool) : Score := ⟨ScoreTag.boolean, if b then 1 else 0⟩

/-- A statistics bag: a mapping from statistic name to numeric value
(spec section 3), i.e. a Python dict, embedded as an association list. -/
abbrev StatsBag := List (String × Rat)

/-- A converter parameter map, e.g. `{'thresh': 2}`. -/
abbrev Params := List (String × Rat)

/-- Modelled from the spec: the base `sciunit.Comparator` state (spec
section 3): the two required-statistics sequences, the declared score type
being carried by the concrete subclass, and the two statistics bags stored
by `assign` before `compute` runs. -/
structure Comparator where
  required_model_stats : List String
  required_reference_stats : List String
  model_stats : StatsBag
  reference_stats : StatsBag
deriving DecidableEq

/-- Modelled from the spec: base-class construction (spec section 4.1,
`construct()`) initializes the two required-statistics sequences empty;
no statistics bags are assigned yet. -/
def Comparator.construct : Comparator :=
  { required_model_stats := []
    required_reference_stats := []
    model_stats := []
    reference_stats := [] }

/-- Modelled from the spec: `assign(model_stats, reference_stats)` (spec
section 4.1) stores the two bags for the upcoming computation, with no
validation; it mutates only the held bag references. -/
def Comparator.assign (c : Comparator) (m r : StatsBag) : Comparator :=
  { c with model_stats := m, reference_stats := r }

/-- `RatioComparator.__init__`: runs the base initializer, then
`self.required_model_stats += ('value',)` and
`self.required_reference_stats += ('mean',)`. -/
def RatioComparator.init : Comparator :=
  let c := Comparator.construct
  { c with
    required_model_stats := c.required_model_stats ++ ["value"]
    required_reference_stats := c.required_reference_stats ++ ["mean"] }

/-- `ZComparator.__init__`: runs the base initializer, then
`self.required_model_stats += ('value',)` and
`self.required_reference_stats += ('mean','std',)`. -/
def ZComparator.init : Comparator :=
  let c := Comparator.construct
  { c with
    required_model_stats := c.required_model_stats ++ ["value"]
    required_reference_stats := c.required_reference_stats ++ ["mean", "std"] }

/-- `RatioComparator.compute`: reads `self.model_stats['value']` and
`self.reference_stats['mean']` (a missing dict key raises `KeyError`)
and returns `(m_value+0.0)/r_mean` (Python division raises
`ZeroDivisionError` on a zero denominator).  The method mutates nothing,
so its state-passing embedding returns the comparator unchanged. -/
def RatioComparator.compute (c : Comparator) : Except SciError Rat × Comparator :=
  match c.model_stats.lookup "value" with
  | none => (Except.error SciError.keyError, c)
  | some m_value =>
    match c.reference_stats.lookup "mean" with
    | none => (Except.error SciError.keyError, c)
    | some r_mean =>
      if r_mean = 0 then (Except.error SciError.zeroDivisionError, c)
      else (Except.ok ((m_value + 0) / r_mean), c)

/-- `ZComparator.compute`: reads `self.model_stats['value']`,
`self.reference_stats['mean']` and `self.reference_stats['std']`
(`KeyError` on a missing key) and returns `(m_value - r_mean)/r_std`
(`ZeroDivisionError` when `r_std` is zero).  No mutation, so the
state-passing embedding returns the comparator unchanged. -/
def ZComparator.compute (c : Comparator) : Except SciError Rat × Comparator :=
  match c.model_stats.lookup "value" with
  | none => (Except.error SciError.keyError, c)
  | some m_value =>
    match c.reference_stats.lookup "mean" with
    | none => (Except.error SciError.keyError, c)
    | some r_mean =>
      match c.reference_stats.lookup "std" with
      | none => (Except.error SciError.keyError, c)
      | some r_std =>
        if r_std = 0 then (Except.error SciError.zeroDivisionError, c)
        else (Except.ok ((m_value - r_mean) / r_std), c)

/-- Modelled from the spec: `Comparator.judge()` (spec section 4.1; the
base class is not under `src/`): fail with `MissingStatisticError` if any
required statistic name is absent from the corresponding assigned bag,
otherwise invoke `compute()` and wrap the raw result in `score_type`.
Any failure from `compute` propagates unchanged (the spec's propagation
policy, section 7: the core never swallows an error). -/
def Comparator.judge (c : Comparator) (score_type : Rat → Score)
    (compute : Comparator → Except SciError Rat × Comparator) :
    Except SciError Score × Comparator :=
  if (c.required_model_stats.all fun k => (c.model_stats.lookup k).isSome)
      && (c.required_reference_stats.all fun k => (c.reference_stats.lookup k).isSome) then
    (match (compute c).1 with
      | Except.ok v => Except.ok (score_type v)
      | Except.error e => Except.error e,
     (compute c).2)
  else (Except.error SciError.missingStatisticError, c)

/-- One whole ratio comparison as the orchestrator drives it (spec
section 6): construct a `RatioComparator`, `assign` the two bags, `judge`. -/
def RatioComparator.judgeOn (m r : StatsBag) : Except SciError Score :=
  ((RatioComparator.init.assign m r).judge RatioScore RatioComparator.compute).1

/-- One whole Z comparison as the orchestrator drives it: construct a
`ZComparator`, `assign` the two bags, `judge`. -/
def ZComparator.judgeOn (m r : StatsBag) : Except SciError Score :=
  ((ZComparator.init.assign m r).judge ZScore ZComparator.compute).1

/-- `ZScoreToBooleanScore(self, Z, params={'thresh':2})`: reads
`params['thresh']` (`KeyError` if the key is absent from the supplied map),
computes `boolean = -thresh <= Z.score <= thresh` and returns
`BooleanScore(boolean)`.  The unused `self` is dropped.  Note the source
performs no check on the type of `Z`: it only reads `Z.score`. -/
def ZScoreToBooleanScore (Z : Score) (params : Params) : Except SciError Score :=
  match params.lookup "thresh" with
  | none => Except.error SciError.keyError
  | some thresh =>
    Except.ok (BooleanScore (decide (-thresh ≤ Z.score ∧ Z.score ≤ thresh)))

/-- The Python default argument `params={'thresh':2}`. -/
def defaultZBoolParams : Params := [("thresh", 2)]

/-- Calling `ZScoreToBooleanScore` with the `params` argument omitted:
Python substitutes the default `{'thresh': 2}`. -/
def ZScoreToBooleanScoreDefault (Z : Score) : Except SciError Score :=
  ZScoreToBooleanScore Z defaultZBoolParams

/-- State-passing embedding of `ZScoreToBooleanScore`, tracking the state
of the input score object through the body: the pair holds the returned
value and the input's final state.  No statement of the source assigns to
`Z`, so every branch carries `Z` through unchanged. -/
def ZScoreToBooleanScoreSt (Z : Score) (params : Params) :
    Except SciError Score × Score :=
  match params.lookup "thresh" with
  | none => (Except.error SciError.keyError, Z)
  | some thresh =>
    (Except.ok (BooleanScore (decide (-thresh ≤ Z.score ∧ Z.score ≤ thresh))), Z)

deriving instance DecidableEq for Except

/-! ### Helper lemmas -/

/-- `BooleanScore` is injective (the raw values 1 and 0 differ). -/
theorem booleanScore_inj {a b : Bool} : BooleanScore a = BooleanScore b ↔ a = b := by
  cases a <;> cases b <;> simp [BooleanScore]

/-- `RatioComparator.compute` leaves the comparator state unchanged. -/
theorem ratio_compute_state (c : Comparator) : (RatioComparator.compute c).2 = c := by
  unfold RatioComparator.compute
  split <;> try rfl
  split <;> try rfl
  split <;> rfl

/-- `ZComparator.compute` leaves the comparator state unchanged. -/
theorem z_compute_state (c : Comparator) : (ZComparator.compute c).2 = c := by
  unfold ZComparator.compute
  split <;> try rfl
  split <;> try rfl
  split <;> try rfl
  split <;> rfl

/-! ### Claims -/

/-- Claim C6: for every ZScore raw value and every supplied threshold, the
Z-to-Boolean converter returns `BooleanScore true` exactly when
`-thresh ≤ Z.score ≤ thresh`, both boundaries inclusive; otherwise it
returns `BooleanScore false`. -/
theorem zToBool_threshold_rule (x t : Rat) (p : Params)
    (ht : p.lookup "thresh" = some t) :
    ZScoreToBooleanScore (ZScore x) p
      = Except.ok (BooleanScore (decide (-t ≤ x ∧ x ≤ t))) ∧
    (ZScoreToBooleanScore (ZScore x) p = Except.ok (BooleanScore true)
      ↔ (-t ≤ x ∧ x ≤ t)) := by
  unfold ZScoreToBooleanScore
  rw [ht]
  refine ⟨rfl, ?_⟩
  simp [ZScore, booleanScore_inj]

/-- Claim C6 witness: with the default threshold 2, the boundary value 2.0
passes, 2.0001 fails, and the boundary value -2.0 passes. -/
theorem zToBool_threshold_rule_witness :
    ZScoreToBooleanScore (ZScore 2) defaultZBoolParams
      = Except.ok (BooleanScore true) ∧
    ZScoreToBooleanScore (ZScore (20001 / 10000)) defaultZBoolParams
      = Except.ok (BooleanScore false) ∧
    ZScoreToBooleanScore (ZScore (-2)) defaultZBoolParams
      = Except.ok (BooleanScore true) := by
  refine ⟨?_, ?_, ?_⟩
  · have h := (zToBool_threshold_rule 2 2 defaultZBoolParams rfl).1
    rw [h]; norm_num
  · have h := (zToBool_threshold_rule (20001 / 10000) 2 defaultZBoolParams rfl).1
    rw [h]; norm_num
  · have h := (zToBool_threshold_rule (-2) 2 defaultZBoolParams rfl).1
    rw [h]; norm_num

/-- Claim C7: the converter never mutates its input score: in the
state-passing embedding the input's final state equals its initial state
whatever the parameters, and the returned value agrees with the direct
embedding. -/
theorem zToBool_input_unchanged (Z : Score) (p : Params) :
    (ZScoreToBooleanScoreSt Z p).2 = Z ∧
    (ZScoreToBooleanScoreSt Z p).1 = ZScoreToBooleanScore Z p := by
  unfold ZScoreToBooleanScoreSt ZScoreToBooleanScore
  cases p.lookup "thresh" <;> exact ⟨rfl, rfl⟩

/-- Claim C8: the converter's result depends only on the input's raw score
value and the `thresh` parameter: two inputs with equal raw values and two
parameter maps agreeing on `thresh` (whatever other keys either holds)
convert identically. -/
theorem zToBool_depends_only_on_raw_and_thresh (Z1 Z2 : Score) (p1 p2 : Params)
    (hs : Z1.score = Z2.score)
    (ht : p1.lookup "thresh" = p2.lookup "thresh") :
    ZScoreToBooleanScore Z1 p1 = ZScoreToBooleanScore Z2 p2 := by
  unfold ZScoreToBooleanScore
  rw [hs, ht]

/-- Claim C8 witness: maps {alpha: 9, thresh: 2} and {thresh: 2, beta: 0}
agree on `thresh`, so the same ZScore converts identically under both. -/
theorem zToBool_depends_only_witness :
    ZScoreToBooleanScore (ZScore 1) [("alpha", 9), ("thresh", 2)]
      = ZScoreToBooleanScore (ZScore 1) [("thresh", 2), ("beta", 0)] :=
  zToBool_depends_only_on_raw_and_thresh (ZScore 1) (ZScore 1)
    [("alpha", 9), ("thresh", 2)] [("thresh", 2), ("beta", 0)] rfl (by decide)

/-- Claim C10: a negative `thresh` makes the acceptance interval
`[-thresh, thresh]` empty, so conversion returns `BooleanScore false` for
every input score; the converter accepts the negative threshold without
failing. -/
theorem zToBool_negative_thresh (Z : Score) (p : Params) (t : Rat)
    (ht : p.lookup "thresh" = some t) (hneg : t < 0) :
    ZScoreToBooleanScore Z p = Except.ok (BooleanScore false) := by
  unfold ZScoreToBooleanScore
  rw [ht]
  have h : ¬(-t ≤ Z.score ∧ Z.score ≤ t) := by
    rintro ⟨h1, h2⟩
    linarith
  simp [h]

/-- Claim C10 witness: with `thresh = -1`, `ZScore 0` converts to
`BooleanScore false`. -/
theorem zToBool_negative_thresh_witness :
    ZScoreToBooleanScore (ZScore 0) [("thresh", -1)]
      = Except.ok (BooleanScore false) :=
  zToBool_negative_thresh (ZScore 0) [("thresh", -1)] (-1) (by decide)
    (by norm_num)

/-- Claim C4: whenever the model bag holds `value` and the reference bag
holds a nonzero `mean`, `RatioComparator.compute` returns
`model.value / reference.mean` and `judge` wraps it in a `RatioScore`. -/
theorem ratio_compute_judge (mstats rstats : StatsBag) (v m : Rat)
    (hv : mstats.lookup "value" = some v) (hm : rstats.lookup "mean" = some m)
    (h0 : m ≠ 0) :
    (RatioComparator.compute (RatioComparator.init.assign mstats rstats)).1
      = Except.ok (v / m) ∧
    RatioComparator.judgeOn mstats rstats = Except.ok (RatioScore (v / m)) := by
  have hc : (RatioComparator.compute (RatioComparator.init.assign mstats rstats)).1
      = Except.ok (v / m) := by
    unfold RatioComparator.compute RatioComparator.init Comparator.assign
      Comparator.construct
    simp [hv, hm, h0]
  refine ⟨hc, ?_⟩
  unfold RatioComparator.judgeOn Comparator.judge
  rw [if_pos]
  · rw [hc]
  · simp [RatioComparator.init, Comparator.assign, Comparator.construct, hv, hm]

/-- Claim C4 witness: `judge({"value": 4.0}, {"mean": 2.0})` yields
`RatioScore(2.0)`. -/
theorem ratio_compute_judge_witness :
    RatioComparator.judgeOn [("value", 4)] [("mean", 2)]
      = Except.ok (RatioScore 2) := by
  have h := (ratio_compute_judge [("value", 4)] [("mean", 2)] 4 2 rfl rfl
    (by norm_num)).2
  rw [show (4 : Rat) / 2 = 2 by norm_num] at h
  exact h

/-- Claim C5: whenever the model bag holds `value` and the reference bag
holds `mean` and a nonzero `std`, `ZComparator.compute` returns
`(model.value - reference.mean) / reference.std` and `judge` wraps it in a
`ZScore`. -/
theorem z_compute_judge (mstats rstats : StatsBag) (v m s : Rat)
    (hv : mstats.lookup "value" = some v) (hm : rstats.lookup "mean" = some m)
    (hs : rstats.lookup "std" = some s) (h0 : s ≠ 0) :
    (ZComparator.compute (ZComparator.init.assign mstats rstats)).1
      = Except.ok ((v - m) / s) ∧
    ZComparator.judgeOn mstats rstats = Except.ok (ZScore ((v - m) / s)) := by
  have hc : (ZComparator.compute (ZComparator.init.assign mstats rstats)).1
      = Except.ok ((v - m) / s) := by
    unfold ZComparator.compute ZComparator.init Comparator.assign
      Comparator.construct
    simp [hv, hm, hs, h0]
  refine ⟨hc, ?_⟩
  unfold ZComparator.judgeOn Comparator.judge
  rw [if_pos]
  · rw [hc]
  · simp [ZComparator.init, Comparator.assign, Comparator.construct, hv, hm, hs]

/-- Claim C5 witness: `judge({"value": 5.0}, {"mean": 3.0, "std": 1.0})`
yields `ZScore(2.0)`. -/
theorem z_compute_judge_witness :
    ZComparator.judgeOn [("value", 5)] [("mean", 3), ("std", 1)]
      = Except.ok (ZScore 2) := by
  have h := (z_compute_judge [("value", 5)] [("mean", 3), ("std", 1)] 5 3 1
    rfl (by decide) (by decide) (by norm_num)).2
  rw [show ((5 : Rat) - 3) / 1 = 2 by norm_num] at h
  exact h

/-- Claim C9: the required-statistics sequences are produced at
construction by appending each subclass's keys after the base initializer's
(empty) sequences — exactly `value` / `mean` for `RatioComparator` and
`value` / `mean`,`std` for `ZComparator` — and no subsequent operation
shrinks them: `assign` preserves both sequences, and `compute` and `judge`
return the comparator state unchanged. -/
theorem required_stats_additive :
    RatioComparator.init.required_model_stats
      = Comparator.construct.required_model_stats ++ ["value"] ∧
    RatioComparator.init.required_reference_stats
      = Comparator.construct.required_reference_stats ++ ["mean"] ∧
    ZComparator.init.required_model_stats
      = Comparator.construct.required_model_stats ++ ["value"] ∧
    ZComparator.init.required_reference_stats
      = Comparator.construct.required_reference_stats ++ ["mean", "std"] ∧
    (∀ c : Comparator, ∀ m r : StatsBag,
      (c.assign m r).required_model_stats = c.required_model_stats ∧
      (c.assign m r).required_reference_stats = c.required_reference_stats) ∧
    (∀ c : Comparator, (RatioComparator.compute c).2 = c) ∧
    (∀ c : Comparator, (ZComparator.compute c).2 = c) ∧
    (∀ c : Comparator,
      (c.judge RatioScore RatioComparator.compute).2 = c ∧
      (c.judge ZScore ZComparator.compute).2 = c) := by
  refine ⟨rfl, rfl, rfl, rfl, fun c m r => ⟨rfl, rfl⟩,
    ratio_compute_state, z_compute_state, fun c => ⟨?_, ?_⟩⟩
  · unfold Comparator.judge
    split
    · exact ratio_compute_state c
    · rfl
  · unfold Comparator.judge
    split
    · exact z_compute_state c
    · rfl

/-- Claim C1, evaluated at the failing inputs: with a zero denominator the
unguarded division in `compute` surfaces as `ZeroDivisionError` through
`judge` — the code does fail rather than produce a value, but with
`ZeroDivisionError`, not the `UndefinedRatioError` / `UndefinedZScoreError`
the claim names (no such guard exists in `compute`). -/
theorem zero_denominator_zeroDivision :
    RatioComparator.judgeOn [("value", 3)] [("mean", 0)]
      = Except.error SciError.zeroDivisionError ∧
    RatioComparator.judgeOn [("value", 3)] [("mean", 0)]
      ≠ Except.error SciError.undefinedRatioError ∧
    ZComparator.judgeOn [("value", 5)] [("mean", 3), ("std", 0)]
      = Except.error SciError.zeroDivisionError ∧
    ZComparator.judgeOn [("value", 5)] [("mean", 3), ("std", 0)]
      ≠ Except.error SciError.undefinedZScoreError := by
  refine ⟨by decide, by decide, by decide, by decide⟩

/-- Claim C2 counterexample: with an explicitly empty parameter map the
converter fails with `KeyError` (`params['thresh']` is read
unconditionally), so it does not behave like `{thresh: 2}`. -/
theorem zToBool_empty_params_counterexample :
    ZScoreToBooleanScore (ZScore 0) [] = Except.error SciError.keyError ∧
    ZScoreToBooleanScore (ZScore 0) [("thresh", 2)]
      = Except.ok (BooleanScore true) ∧
    ZScoreToBooleanScore (ZScore 0) []
      ≠ ZScoreToBooleanScore (ZScore 0) [("thresh", 2)] := by
  refine ⟨rfl, by decide, by decide⟩

/-- Claim C2 amended: only omitting the `params` argument altogether makes
the converter use the default `{thresh: 2}` (Python's default argument);
a supplied map missing the recognized key `thresh` — in particular the
empty map — fails with `KeyError` instead of taking the default. -/
theorem zToBool_default_only_when_omitted (Z : Score) :
    ZScoreToBooleanScoreDefault Z = ZScoreToBooleanScore Z [("thresh", 2)] ∧
    ZScoreToBooleanScore Z [] = Except.error SciError.keyError :=
  ⟨rfl, rfl⟩

/-- Claim C3 counterexample: the converter applied to a score that is not a
ZScore (here a `RatioScore`) returns a result instead of failing with
`IncompatibleScoreTypeError`. -/
theorem zToBool_accepts_ratio_counterexample :
    ZScoreToBooleanScore (RatioScore 0) defaultZBoolParams
      = Except.ok (BooleanScore true) ∧
    ZScoreToBooleanScore (RatioScore 0) defaultZBoolParams
      ≠ Except.error SciError.incompatibleScoreTypeError := by
  refine ⟨by decide, by decide⟩

/-- Claim C3 amended: the converter performs no score-type validation: for
any score whatsoever (whatever its tag) it reads the raw value, applies the
threshold rule, and returns a `BooleanScore`; it never fails with
`IncompatibleScoreTypeError`. -/
theorem zToBool_no_type_check (s : Score) (p : Params) (t : Rat)
    (ht : p.lookup "thresh" = some t) :
    ZScoreToBooleanScore s p
      = Except.ok (BooleanScore (decide (-t ≤ s.score ∧ s.score ≤ t))) ∧
    ZScoreToBooleanScore s p
      ≠ Except.error SciError.incompatibleScoreTypeError := by
  unfold ZScoreToBooleanScore
  rw [ht]
  exact ⟨rfl, fun h => Except.noConfusion h⟩

/-- Claim C3 amended witness: a `RatioScore` input with the default
parameters is converted, not rejected. -/
theorem zToBool_no_type_check_witness :
    ZScoreToBooleanScore (RatioScore 1) defaultZBoolParams
      ≠ Except.error SciError.incompatibleScoreTypeError :=
  (zToBool_no_type_check (RatioScore 1) defaultZBoolParams 2 (by decide)).2
